import Mathlib

/-
Verification of the incremental redraw scheduler in drawanim.py.

The development shallowly embeds the two classes of the module:
  * DrawTimes   - the scoped timing accumulator (enter / exit protocol),
  * DrawAnimated - the draw state machine stepped by draw(), together with
    reset(), the resize / draw-event callbacks, open() and close().

Machine-level details that are irrelevant to control flow (wall-clock
readings, bitmaps) are represented abstractly: a point in time is a
rational number supplied by the caller, a captured bitmap is an opaque
natural number supplied by the canvas environment.  Canvas side effects
performed by a step are recorded explicitly as a list of CanvasOp values.
-/

namespace Drawanim

/-- The DrawAnimated.DrawState enumeration from drawanim.py. -/
inductive DrawState where
  | CREATED
  | OPEN
  | START
  | STATIC
  | DYNAMIC
  | BLIT
  | CLEANUP
  | FLUSH
  | DONE
  | CLOSED
  | RESET
  | WAITING
deriving DecidableEq, Repr

/-- The .name attribute of a DrawState member. -/
def DrawState.name : DrawState → String
  | .CREATED => "CREATED"
  | .OPEN => "OPEN"
  | .START => "START"
  | .STATIC => "STATIC"
  | .DYNAMIC => "DYNAMIC"
  | .BLIT => "BLIT"
  | .CLEANUP => "CLEANUP"
  | .FLUSH => "FLUSH"
  | .DONE => "DONE"
  | .CLOSED => "CLOSED"
  | .RESET => "RESET"
  | .WAITING => "WAITING"

/-- Type tag of a matplotlib artist, as far as the classification in
draw() distinguishes types: XAxis, YAxis, Legend, Spine, or anything
else. -/
inductive ArtistKind where
  | xaxis
  | yaxis
  | legend
  | spine
  | other
deriving DecidableEq, Repr

/-- An externally owned artist.  `ident` models the Python id() of the
object, `label` models get_label()/_label, `isPatch` models identity
with axes.patch, `isTitle` models membership in
[axes.title, axes._left_title, axes._right_title]. -/
structure Artist where
  ident : Nat
  label : String
  animated : Bool
  visible : Bool
  isPatch : Bool
  isTitle : Bool
  kind : ArtistKind
deriving DecidableEq, Repr

/-- A child of the figure; classification only descends into children
for which `type(child) is plt.Axes`. -/
structure FigChild where
  isAxes : Bool
  children : List Artist
deriving DecidableEq, Repr

/-- The external world a call observes: the figure children tree, the
bitmap the canvas would hand back from copy_from_bbox right now, and
whether mpl_disconnect raises for a given stored connection. -/
structure Env where
  figChildren : List FigChild
  capture : Nat
  disconnectFails : String → Bool

/-- The mutable attributes of a DrawAnimated instance that the state
machine reads or writes.  Fields `bg_base` and `static` model the two
attributes of those exact names that open() assigns (distinct from
`_bg_base` and `_bg_static`); neither is ever read by the class. -/
structure DAState where
  draw_state : DrawState
  _bg_base : Option Nat
  _bg_static : Option Nat
  current_animated_artists : List Artist
  static_animated_artists : List Artist
  dynamic_animated_artists : List Artist
  static_draws : Nat
  dynamic_draws : Nat
  static_artists : Nat
  dynamic_artists : Nat
  avg_static_draws : ℚ
  avg_dynamic_draws : ℚ
  first : Bool
  _fps : ℚ
  fps_info : ℚ × Nat × Nat × ℚ × ℚ
  blit_times : List (ℚ × Nat × Nat)
  wait_count : Nat
  _mpl_connect : List String
  extra_static_artists : List Nat
  xaxis_dynamic : Bool
  yaxis_dynamic : Bool
  debug : Bool
  name : String
  bg_base : Option Nat
  static : Option Nat
deriving DecidableEq, Repr

/-- DrawAnimated.__init__ (the attributes that exist from construction;
attributes first assigned by open() are given inert defaults here and a
call of draw() before open() is outside the modelled behaviour, as in
Python it would raise AttributeError). -/
def init (name : String := "") : DAState :=
  { draw_state := .CREATED
    _bg_base := none
    _bg_static := none
    current_animated_artists := []
    static_animated_artists := []
    dynamic_animated_artists := []
    static_draws := 0
    dynamic_draws := 0
    static_artists := 0
    dynamic_artists := 0
    avg_static_draws := 0
    avg_dynamic_draws := 0
    first := true
    _fps := 0
    fps_info := (0, 0, 0, 0, 0)
    blit_times := []
    wait_count := 0
    _mpl_connect := []
    extra_static_artists := []
    xaxis_dynamic := false
    yaxis_dynamic := false
    debug := false
    name := name
    bg_base := none
    static := none }

/-- DrawAnimated.reset: a no-op while WAITING, otherwise moves to RESET
and drops the static background. -/
def reset (s : DAState) (_info : String) : DAState :=
  if s.draw_state = .WAITING then s
  else { s with draw_state := .RESET, _bg_static := none }

/-- DrawAnimated._on_resize: drops both cached backgrounds, moves to
WAITING unless currently at START, and zeroes wait_count. -/
def on_resize (s : DAState) : DAState :=
  let s1 := { s with _bg_base := none, _bg_static := none }
  let s2 := if s1.draw_state ≠ .START then { s1 with draw_state := .WAITING } else s1
  { s2 with wait_count := 0 }

/-- DrawAnimated._on_draw_event: moves to RESET and drops the static
background. -/
def on_draw_event (s : DAState) : DAState :=
  { s with draw_state := .RESET, _bg_static := none }

/-- DrawAnimated._on_close_event: pass. -/
def on_close_event (s : DAState) : DAState :=
  s

/-- DrawAnimated.add_static_artist. -/
def add_static_artist (s : DAState) (a : Nat) : DAState :=
  { s with extra_static_artists := s.extra_static_artists ++ [a] }

/-- Insertion into a CPython dict keyed by id(): an existing key keeps
its position and takes the new value, a fresh key goes to the back. -/
def dictInsert (d : List (Nat × Artist)) (k : Nat) (v : Artist) : List (Nat × Artist) :=
  if d.any (fun p => p.1 = k) then d.map (fun p => if p.1 = k then (k, v) else p)
  else d ++ [(k, v)]

/-- The three dicts built by the enumeration block of draw(). -/
structure Dicts where
  patch_dict : List (Nat × Artist)
  static_dict : List (Nat × Artist)
  dynamic_dict : List (Nat × Artist)
deriving DecidableEq, Repr

/-- One artist of one axes, classified by the branch cascade in draw():
patch first, then membership in extra_static_artists, then the type
tests with the xaxis_dynamic / yaxis_dynamic overrides, then the title
identities, anything else dynamic.  Only animated and visible artists
are considered at all. -/
def classifyArtist (s : DAState) (d : Dicts) (a : Artist) : Dicts :=
  if a.animated && a.visible then
    if a.isPatch then
      { d with patch_dict := dictInsert d.patch_dict a.ident a }
    else if s.extra_static_artists.contains a.ident then
      { d with static_dict := dictInsert d.static_dict a.ident a }
    else if (a.kind = .xaxis ∧ ¬s.xaxis_dynamic) ∨ (a.kind = .yaxis ∧ ¬s.yaxis_dynamic)
        ∨ a.kind = .legend ∨ a.kind = .spine then
      { d with static_dict := dictInsert d.static_dict a.ident a }
    else if a.isTitle then
      { d with static_dict := dictInsert d.static_dict a.ident a }
    else
      { d with dynamic_dict := dictInsert d.dynamic_dict a.ident a }
  else d

/-- The full enumeration over fig.get_children(): static list is patch
values followed by static values, dynamic list is the dynamic values. -/
def classify (s : DAState) (env : Env) : List Artist × List Artist :=
  let d := env.figChildren.foldl
    (fun d c => if c.isAxes then c.children.foldl (classifyArtist s) d else d)
    ⟨[], [], []⟩
  (d.patch_dict.map Prod.snd ++ d.static_dict.map Prod.snd, d.dynamic_dict.map Prod.snd)

/-- The state updates of the artist-enumeration block that draw() runs
when the state is START, STATIC or DYNAMIC: the artist counters are
refreshed on every such call, the stored artist lists only at START,
and the `first` flag is cleared once a dump condition has been met. -/
def enumerate_artists (env : Env) (s : DAState) : DAState :=
  let sd := classify s env
  let s1 := { s with static_artists := sd.1.length, dynamic_artists := sd.2.length }
  let s2 :=
    if s1.draw_state = .START then
      { s1 with static_animated_artists := sd.1, dynamic_animated_artists := sd.2 }
    else s1
  if s2.first = true ∨ s2._bg_static = none ∨ s2._bg_base = none then
    { s2 with first := false }
  else s2

/-- The canvas side effects a draw() call can perform. -/
inductive CanvasOp where
  | copy_from_bbox
  | restore_region (bg : Nat)
  | draw_artist (a : Artist)
  | blit
  | flush_events
deriving DecidableEq, Repr

/-- The label draw_artists returns for a drawn artist:
an f-string of id(a) and get_label(a). -/
def artistLabel (a : Artist) : String :=
  toString a.ident ++ " " ++ a.label

/-- Result of one draw() call: the successor state, the returned value
(`none` models the implicit Python None return on the CREATED / OPEN /
CLOSED fall-through, `some (label, category, state_name)` the explicit
triple), and the canvas operations performed. -/
structure DrawResult where
  state : DAState
  ret : Option (Option String × Option String × String)
  ops : List CanvasOp
deriving DecidableEq, Repr

/-- The RESET block of draw(): clear the static background so it will
be redrawn. -/
def draw_reset_step (s : DAState) : DrawResult :=
  let s := { s with draw_state := .START, _bg_static := none }
  ⟨s, some (some "reset", none, s.draw_state.name), []⟩

/-- The START block of draw(): zero the per-cycle draw counters, then
either capture the base background, or restore the base so the static
artists can be redrawn, or restore the static background and proceed
straight to the dynamic artists. -/
def draw_start_step (env : Env) (s : DAState) : DrawResult :=
  let s := { s with dynamic_draws := 0, static_draws := 0 }
  if s._bg_base = none then
    let s := { s with _bg_base := some env.capture, _bg_static := none,
                      draw_state := .STATIC }
    ⟨s, some (some "bg_base = copy_from_bbox", none, s.draw_state.name),
      [.copy_from_bbox]⟩
  else if s._bg_static = none then
    let s := { s with draw_state := .STATIC }
    ⟨s, some (some "restore_region bg_base", none, s.draw_state.name),
      [.restore_region (s._bg_base.getD 0)]⟩
  else
    let s := { s with draw_state := .DYNAMIC }
    ⟨s, some (some "restore_region bg_static", none, s.draw_state.name),
      [.restore_region (s._bg_static.getD 0)]⟩

/-- The STATIC block of draw(): pop and draw one stored static artist,
or, once the list is exhausted, capture the static background and move
on to DYNAMIC. -/
def draw_static_step (env : Env) (s : DAState) : DrawResult :=
  match s.static_animated_artists with
  | a :: rest =>
    let s := { s with static_animated_artists := rest,
                      static_draws := s.static_draws + 1 }
    ⟨s, some (some (artistLabel a), some "static", s.draw_state.name),
      [.draw_artist a]⟩
  | [] =>
    let s := { s with _bg_static := some env.capture, draw_state := .DYNAMIC }
    ⟨s, some (some "bg_static = copy_from_bbox", none, s.draw_state.name),
      [.copy_from_bbox]⟩

/-- The DYNAMIC block of draw(): pop and draw one stored dynamic
artist, or move on to BLIT once the list is exhausted. -/
def draw_dynamic_step (s : DAState) : DrawResult :=
  match s.dynamic_animated_artists with
  | a :: rest =>
    let s := { s with dynamic_animated_artists := rest,
                      dynamic_draws := s.dynamic_draws + 1 }
    ⟨s, some (some (artistLabel a), some "dynamic", s.draw_state.name),
      [.draw_artist a]⟩
  | [] =>
    let s := { s with draw_state := .BLIT }
    ⟨s, some (some "dynamic", none, s.draw_state.name), []⟩

/-- The BLIT block of draw(): composite the figure bbox once. -/
def draw_blit_step (s : DAState) : DrawResult :=
  let s := { s with draw_state := .CLEANUP }
  ⟨s, some (some "blit", none, s.draw_state.name), [.blit]⟩

/-- The CLEANUP block of draw(): record the frame in the rolling
120-second blit_times window and recompute the smoothed statistics. -/
def draw_cleanup_step (flush_events : Bool) (now : ℚ) (s : DAState) : DrawResult :=
  let s := { s with draw_state := if flush_events then .FLUSH else .DONE }
  let bt0 := s.blit_times ++ [(now, s.static_draws, s.dynamic_draws)]
  let delete_time := now - 120
  let bt := bt0.filter (fun t => delete_time < t.1)
  let elapsed := (bt.getLastD (0, 0, 0)).1 - (bt.headD (0, 0, 0)).1
  let s := { s with blit_times := bt,
                    _fps := if 0 < elapsed then (bt.length : ℚ) / elapsed else 0,
                    avg_static_draws :=
                      ((bt.map (fun (t : ℚ × Nat × Nat) => (t.2.1 : ℚ))).sum)
                        / (bt.length : ℚ),
                    avg_dynamic_draws :=
                      ((bt.map (fun (t : ℚ × Nat × Nat) => (t.2.2 : ℚ))).sum)
                        / (bt.length : ℚ) }
  let s := { s with fps_info := (s._fps, s.static_artists, s.dynamic_artists,
                                 s.avg_static_draws, s.avg_dynamic_draws) }
  ⟨s, some (some "cleanup", none, s.draw_state.name), []⟩

/-- The FLUSH block of draw(): let the GUI event loop run once. -/
def draw_flush_step (s : DAState) : DrawResult :=
  let s := { s with draw_state := .DONE }
  ⟨s, some (some "FLUSH", none, s.draw_state.name), [.flush_events]⟩

/-- The DONE block of draw(): loop back to START and signal the host
by returning a None label. -/
def draw_done_step (s : DAState) : DrawResult :=
  let s := { s with draw_state := .START }
  ⟨s, some (none, none, s.draw_state.name), []⟩

/-- DrawAnimated.draw: one step of the state machine.  `flush_events`
is the keyword argument, `now` the perf_counter reading of the call,
`env` the observable canvas and figure world.  The WAITING early
return comes first, then the artist enumeration for the three listed
phases, then the cascade of phase blocks; a state that matches no
block (CREATED, OPEN, CLOSED) falls off the end of the Python
function, which returns None. -/
def draw (env : Env) (flush_events : Bool) (now : ℚ) (s : DAState) : DrawResult :=
  if s.draw_state = .WAITING then
    ⟨s, some (some "waiting", none, s.draw_state.name), []⟩
  else
    let s :=
      if s.draw_state = .START ∨ s.draw_state = .STATIC ∨ s.draw_state = .DYNAMIC then
        enumerate_artists env s
      else s
    if s.draw_state = .RESET then draw_reset_step s
    else if s.draw_state = .START then draw_start_step env s
    else if s.draw_state = .STATIC then draw_static_step env s
    else if s.draw_state = .DYNAMIC then draw_dynamic_step s
    else if s.draw_state = .BLIT then draw_blit_step s
    else if s.draw_state = .CLEANUP then draw_cleanup_step flush_events now s
    else if s.draw_state = .FLUSH then draw_flush_step s
    else if s.draw_state = .DONE then draw_done_step s
    else ⟨s, none, []⟩

/-- DrawAnimated.open disconnect loop and DrawAnimated.close loop body:
disconnect the stored connections in order, an exception aborts the
loop. -/
def disconnectAll (env : Env) : List String → Except Unit Unit
  | [] => .ok ()
  | e :: rest => if env.disconnectFails e then .error () else disconnectAll env rest

/-- DrawAnimated.open.  The disconnect loop sits inside a bare
try/except, so its outcome is discarded; note the final snapshot-
clearing line assigns the attributes `bg_base` and `static`, not
`_bg_base` and `_bg_static`. -/
def openDA (env : Env) (s : DAState) (xaxis_dynamic yaxis_dynamic : Bool)
    (extra_static_artists : List Nat) (debug : Bool) (name : Option String) :
    Except Unit DAState :=
  let s := { s with draw_state := .OPEN }
  let s := { s with xaxis_dynamic := xaxis_dynamic, yaxis_dynamic := yaxis_dynamic,
                    extra_static_artists := extra_static_artists, debug := debug }
  let s := { s with draw_state := .START }
  let s := match name with
    | some n => { s with name := n }
    | none => s
  let _ := disconnectAll env s._mpl_connect
  let s := { s with _mpl_connect := [] }
  let s := { s with bg_base := none, static := none }
  let s := { s with _mpl_connect := ["resize_event", "draw_event", "close_event"] }
  .ok s

/-- DrawAnimated.close.  The disconnect loop is not guarded, so the
first disconnect failure propagates and the trailing clean-up
assignments never run. -/
def close (env : Env) (s : DAState) : Except Unit DAState :=
  match disconnectAll env s._mpl_connect with
  | .error e => .error e
  | .ok _ => .ok { s with _mpl_connect := [], extra_static_artists := [] }

/-- The accumulator state of a DrawTimes instance.  The four dicts are
modelled as maps from a key to `some value` when the key is present. -/
structure DrawTimes where
  _drawtimes : String → Option ℚ
  _drawcount : String → Option Nat
  _drawlast : String → Option ℚ
  _drawtypes : String → Option (Option String)
  t0 : Option ℚ
  name : Option String
  type : Option String
  elapsed : ℚ

/-- DrawTimes.__init__. -/
def DrawTimes.make : DrawTimes :=
  { _drawtimes := fun _ => none
    _drawcount := fun _ => none
    _drawlast := fun _ => none
    _drawtypes := fun _ => none
    t0 := none
    name := none
    type := none
    elapsed := 0 }

/-- DrawTimes.__enter__ at perf_counter reading `now`. -/
def DrawTimes.enter (now : ℚ) (st : DrawTimes) : DrawTimes :=
  { st with t0 := some now, name := none }

/-- DrawTimes.__exit__ at perf_counter reading `t1`: an early return
when no name was recorded, otherwise initialise the accumulators for a
fresh name and then add the elapsed time, bump the count, stamp the
last time and the type, and clear name and type. -/
def DrawTimes.exit (t1 : ℚ) (st : DrawTimes) : DrawTimes :=
  match st.name with
  | none => st
  | some n =>
    let elapsed := t1 - st.t0.getD 0
    let st1 :=
      if (st._drawtimes n).isNone then
        { st with
          _drawtimes := fun m => if m = n then some 0 else st._drawtimes m
          _drawlast := fun m => if m = n then some 0 else st._drawlast m
          _drawcount := fun m => if m = n then some 0 else st._drawcount m
          _drawtypes := fun m => if m = n then some none else st._drawtypes m }
      else st
    { st1 with
      elapsed := elapsed
      _drawtimes := fun m => if m = n then some ((st1._drawtimes n).getD 0 + elapsed)
                             else st1._drawtimes m
      _drawlast := fun m => if m = n then some t1 else st1._drawlast m
      _drawcount := fun m => if m = n then some ((st1._drawcount n).getD 0 + 1)
                             else st1._drawcount m
      _drawtypes := fun m => if m = n then some st1.type else st1._drawtypes m
      name := none
      type := none }

/-- The states the machine moves through once open() has run: the draw
cycle proper plus the RESET and WAITING side states; only CREATED, OPEN
and CLOSED are outside. -/
def cycleStates : List DrawState :=
  [.START, .STATIC, .DYNAMIC, .BLIT, .CLEANUP, .FLUSH, .DONE, .RESET, .WAITING]

/-- Reachability invariant of a DrawAnimated instance: the WAITING
phase is only ever entered by _on_resize, which drops the static
background first, and nothing recaptures a background while WAITING,
so in WAITING the static background is always absent. -/
def waitInv (s : DAState) : Prop :=
  s.draw_state = .WAITING → s._bg_static = none

/-- Well-formedness of a DrawTimes accumulator: the times and count
dicts always hold exactly the same keys, because __exit__ only ever
writes them together. -/
def drawtimesWF (st : DrawTimes) : Prop :=
  ∀ m, st._drawtimes m = none ↔ st._drawcount m = none

/-! Concrete sample worlds and instance states used to instantiate the
theorems below. -/

/-- A canvas world with no axes whose disconnects all succeed. -/
def env0 : Env :=
  { figChildren := [], capture := 5, disconnectFails := fun _ => false }

/-- A canvas world whose mpl_disconnect raises on every connection. -/
def envFail : Env :=
  { figChildren := [], capture := 5, disconnectFails := fun _ => true }

/-- A plain dynamic artist. -/
def sampleArtist : Artist :=
  { ident := 42, label := "line-red", animated := true, visible := true,
    isPatch := false, isTitle := false, kind := .other }

/-- A dynamic artist that has been removed from the figure. -/
def removedArtist : Artist :=
  { ident := 99, label := "removed-line", animated := true, visible := true,
    isPatch := false, isTitle := false, kind := .other }

/-- A figure with one axes holding no artists at all, as observed after
`removedArtist` was removed mid cycle. -/
def envAfterRemoval : Env :=
  { figChildren := [{ isAxes := true, children := [] }], capture := 11,
    disconnectFails := fun _ => false }

/-- An instance at the end of a frame. -/
def doneState : DAState :=
  { init "" with draw_state := .DONE }

/-- An instance stalled by a resize. -/
def waitingState : DAState :=
  { init "" with draw_state := .WAITING }

/-- An instance at START with no cached backgrounds. -/
def startNoStatic : DAState :=
  { init "" with draw_state := .START }

/-- An instance in the STATIC phase with one stored static artist. -/
def staticOneState : DAState :=
  { init "" with draw_state := .STATIC, _bg_base := some 3,
                 static_animated_artists := [sampleArtist] }

/-- An instance in the STATIC phase with its static list exhausted. -/
def staticEmptyState : DAState :=
  { init "" with draw_state := .STATIC, _bg_base := some 3 }

/-- An instance mid cycle in the DYNAMIC phase whose stored dynamic
list still holds `removedArtist`. -/
def midCycleState : DAState :=
  { init "" with draw_state := .DYNAMIC, _bg_base := some 1, _bg_static := some 2,
                 dynamic_animated_artists := [removedArtist] }

/-- An instance that has completed cycles (both backgrounds cached,
callbacks connected) and is about to be re-opened. -/
def preOpenState : DAState :=
  { init "" with draw_state := .DONE, _bg_base := some 7, _bg_static := some 8,
                 _mpl_connect := ["resize_event", "draw_event", "close_event"] }

/-- An instance with the three usual callbacks connected. -/
def connectedState : DAState :=
  { init "" with _mpl_connect := ["resize_event", "draw_event", "close_event"] }

/-- A DrawTimes accumulator mid-session: one name already recorded, a
context for that name just finished. -/
def dt0 : DrawTimes :=
  { DrawTimes.make with
    _drawtimes := fun m => if m = "axis" then some 2 else none,
    _drawcount := fun m => if m = "axis" then some 3 else none,
    t0 := some 1, name := some "axis", type := some "XAxis" }

/-! Projection facts about the enumeration block: it never touches the
machine phase, the cached backgrounds, the per-cycle draw counters, nor
(outside START) the stored artist lists. -/

@[simp] theorem enumerate_artists_draw_state (env : Env) (s : DAState) :
    (enumerate_artists env s).draw_state = s.draw_state := by
  unfold enumerate_artists
  dsimp only
  split <;> split <;> rfl

@[simp] theorem enumerate_artists_bg_base (env : Env) (s : DAState) :
    (enumerate_artists env s)._bg_base = s._bg_base := by
  unfold enumerate_artists
  dsimp only
  split <;> split <;> rfl

@[simp] theorem enumerate_artists_bg_static (env : Env) (s : DAState) :
    (enumerate_artists env s)._bg_static = s._bg_static := by
  unfold enumerate_artists
  dsimp only
  split <;> split <;> rfl

@[simp] theorem enumerate_artists_static_draws (env : Env) (s : DAState) :
    (enumerate_artists env s).static_draws = s.static_draws := by
  unfold enumerate_artists
  dsimp only
  split <;> split <;> rfl

@[simp] theorem enumerate_artists_dynamic_draws (env : Env) (s : DAState) :
    (enumerate_artists env s).dynamic_draws = s.dynamic_draws := by
  unfold enumerate_artists
  dsimp only
  split <;> split <;> rfl

@[simp] theorem enumerate_artists_blit_times (env : Env) (s : DAState) :
    (enumerate_artists env s).blit_times = s.blit_times := by
  unfold enumerate_artists
  dsimp only
  split <;> split <;> rfl

@[simp] theorem enumerate_artists_static_list (env : Env) (s : DAState)
    (h : ¬s.draw_state = .START) :
    (enumerate_artists env s).static_animated_artists = s.static_animated_artists := by
  unfold enumerate_artists
  dsimp only
  rw [if_neg h]
  split <;> rfl

@[simp] theorem enumerate_artists_dynamic_list (env : Env) (s : DAState)
    (h : ¬s.draw_state = .START) :
    (enumerate_artists env s).dynamic_animated_artists = s.dynamic_animated_artists := by
  unfold enumerate_artists
  dsimp only
  rw [if_neg h]
  split <;> rfl

/-! Dispatch facts: with a known phase, draw() is the matching block,
applied to the enumerated state for the three phases that re-enumerate
artists, to the untouched state otherwise. -/

theorem draw_eq_waiting (env : Env) (f : Bool) (now : ℚ) (s : DAState)
    (h : s.draw_state = .WAITING) :
    draw env f now s = ⟨s, some (some "waiting", none, s.draw_state.name), []⟩ := by
  simp [draw, h]

theorem draw_eq_reset (env : Env) (f : Bool) (now : ℚ) (s : DAState)
    (h : s.draw_state = .RESET) :
    draw env f now s = draw_reset_step s := by
  simp [draw, h]

theorem draw_eq_start (env : Env) (f : Bool) (now : ℚ) (s : DAState)
    (h : s.draw_state = .START) :
    draw env f now s = draw_start_step env (enumerate_artists env s) := by
  simp [draw, h]

theorem draw_eq_static (env : Env) (f : Bool) (now : ℚ) (s : DAState)
    (h : s.draw_state = .STATIC) :
    draw env f now s = draw_static_step env (enumerate_artists env s) := by
  simp [draw, h]

theorem draw_eq_dynamic (env : Env) (f : Bool) (now : ℚ) (s : DAState)
    (h : s.draw_state = .DYNAMIC) :
    draw env f now s = draw_dynamic_step (enumerate_artists env s) := by
  simp [draw, h]

theorem draw_eq_blit (env : Env) (f : Bool) (now : ℚ) (s : DAState)
    (h : s.draw_state = .BLIT) :
    draw env f now s = draw_blit_step s := by
  simp [draw, h]

theorem draw_eq_cleanup (env : Env) (f : Bool) (now : ℚ) (s : DAState)
    (h : s.draw_state = .CLEANUP) :
    draw env f now s = draw_cleanup_step f now s := by
  simp [draw, h]

theorem draw_eq_flush (env : Env) (f : Bool) (now : ℚ) (s : DAState)
    (h : s.draw_state = .FLUSH) :
    draw env f now s = draw_flush_step s := by
  simp [draw, h]

theorem draw_eq_done (env : Env) (f : Bool) (now : ℚ) (s : DAState)
    (h : s.draw_state = .DONE) :
    draw env f now s = draw_done_step s := by
  simp [draw, h]

theorem draw_eq_fallthrough (env : Env) (f : Bool) (now : ℚ) (s : DAState)
    (h : s.draw_state = .CREATED ∨ s.draw_state = .OPEN ∨ s.draw_state = .CLOSED) :
    draw env f now s = ⟨s, none, []⟩ := by
  rcases h with h | h | h <;> simp [draw, h]

/-! The phase each block leaves the machine in. -/

theorem draw_reset_step_state (s : DAState) :
    (draw_reset_step s).state.draw_state = .START :=
  rfl

theorem draw_start_step_state (env : Env) (s : DAState) :
    (draw_start_step env s).state.draw_state = .STATIC ∨
      (draw_start_step env s).state.draw_state = .DYNAMIC := by
  unfold draw_start_step
  dsimp only
  split
  · exact .inl rfl
  · split
    · exact .inl rfl
    · exact .inr rfl

theorem draw_static_step_state (env : Env) (s : DAState) :
    (draw_static_step env s).state.draw_state = s.draw_state ∨
      (draw_static_step env s).state.draw_state = .DYNAMIC := by
  unfold draw_static_step
  split
  · exact .inl rfl
  · exact .inr rfl

theorem draw_dynamic_step_state (s : DAState) :
    (draw_dynamic_step s).state.draw_state = s.draw_state ∨
      (draw_dynamic_step s).state.draw_state = .BLIT := by
  unfold draw_dynamic_step
  split
  · exact .inl rfl
  · exact .inr rfl

theorem draw_blit_step_state (s : DAState) :
    (draw_blit_step s).state.draw_state = .CLEANUP :=
  rfl

theorem draw_cleanup_step_state (f : Bool) (now : ℚ) (s : DAState) :
    (draw_cleanup_step f now s).state.draw_state =
      (if f then DrawState.FLUSH else DrawState.DONE) :=
  rfl

theorem draw_flush_step_state (s : DAState) :
    (draw_flush_step s).state.draw_state = .DONE :=
  rfl

theorem draw_done_step_state (s : DAState) :
    (draw_done_step s).state.draw_state = .START :=
  rfl

/-- The CLEANUP block performs no canvas operation. -/
theorem draw_cleanup_step_ops (f : Bool) (now : ℚ) (s : DAState) :
    (draw_cleanup_step f now s).ops = [] :=
  rfl

/-- The CLEANUP block returns the cleanup label and the name of the
state it moved to. -/
theorem draw_cleanup_step_ret (f : Bool) (now : ℚ) (s : DAState) :
    (draw_cleanup_step f now s).ret =
      some (some "cleanup", none, (if f then DrawState.FLUSH else DrawState.DONE).name) :=
  rfl

/-- A START block entered without a static background always moves to
the STATIC phase, whether or not the base background must be captured
first. -/
theorem draw_start_step_to_static (env : Env) (s : DAState)
    (h : s._bg_static = none) :
    (draw_start_step env s).state.draw_state = .STATIC := by
  unfold draw_start_step
  simp only [h]
  split <;> rfl

theorem waitInv_init (name : String) : waitInv (init name) := by
  intro h
  rfl

theorem waitInv_reset (s : DAState) (info : String) (h : waitInv s) :
    waitInv (reset s info) := by
  unfold reset
  split
  · exact h
  · intro hx
    rfl

theorem waitInv_on_resize (s : DAState) : waitInv (on_resize s) := by
  unfold on_resize waitInv
  dsimp only
  split <;> intro hx <;> rfl

theorem waitInv_on_draw_event (s : DAState) : waitInv (on_draw_event s) := by
  intro hx
  rfl

theorem waitInv_openDA (env : Env) (s s2 : DAState) (xd yd dbg : Bool)
    (extra : List Nat) (nm : Option String)
    (h : openDA env s xd yd extra dbg nm = .ok s2) : waitInv s2 := by
  unfold openDA at h
  cases nm <;> simp only at h <;> cases h <;> intro hx <;> cases hx

theorem waitInv_draw (env : Env) (f : Bool) (now : ℚ) (s : DAState)
    (h : waitInv s) : waitInv ((draw env f now s).state) := by
  cases hs : s.draw_state
  case CREATED => rw [draw_eq_fallthrough env f now s (.inl hs)]; exact h
  case OPEN => rw [draw_eq_fallthrough env f now s (.inr (.inl hs))]; exact h
  case CLOSED => rw [draw_eq_fallthrough env f now s (.inr (.inr hs))]; exact h
  case WAITING => rw [draw_eq_waiting env f now s hs]; exact h
  case RESET =>
    rw [draw_eq_reset env f now s hs]
    intro hx
    rw [draw_reset_step_state] at hx
    cases hx
  case START =>
    rw [draw_eq_start env f now s hs]
    intro hx
    rcases draw_start_step_state env (enumerate_artists env s) with h1 | h1 <;>
      rw [h1] at hx <;> cases hx
  case STATIC =>
    rw [draw_eq_static env f now s hs]
    intro hx
    rcases draw_static_step_state env (enumerate_artists env s) with h1 | h1 <;>
      rw [h1] at hx
    · rw [enumerate_artists_draw_state, hs] at hx
      cases hx
    · cases hx
  case DYNAMIC =>
    rw [draw_eq_dynamic env f now s hs]
    intro hx
    rcases draw_dynamic_step_state (enumerate_artists env s) with h1 | h1 <;>
      rw [h1] at hx
    · rw [enumerate_artists_draw_state, hs] at hx
      cases hx
    · cases hx
  case BLIT =>
    rw [draw_eq_blit env f now s hs]
    intro hx
    rw [draw_blit_step_state] at hx
    cases hx
  case CLEANUP =>
    rw [draw_eq_cleanup env f now s hs]
    intro hx
    rw [draw_cleanup_step_state] at hx
    cases f <;> simp at hx
  case FLUSH =>
    rw [draw_eq_flush env f now s hs]
    intro hx
    rw [draw_flush_step_state] at hx
    cases hx
  case DONE =>
    rw [draw_eq_done env f now s hs]
    intro hx
    rw [draw_done_step_state] at hx
    cases hx

/-- Claim C7: every single call to draw(), in every state, performs at
most one unit of canvas work — the list of canvas operations recorded
for a step never holds more than one element. -/
theorem draw_at_most_one_canvas_op (env : Env) (f : Bool) (now : ℚ) (s : DAState) :
    (draw env f now s).ops.length ≤ 1 := by
  cases hs : s.draw_state
  case CREATED => rw [draw_eq_fallthrough env f now s (.inl hs)]; simp
  case OPEN => rw [draw_eq_fallthrough env f now s (.inr (.inl hs))]; simp
  case CLOSED => rw [draw_eq_fallthrough env f now s (.inr (.inr hs))]; simp
  case WAITING => rw [draw_eq_waiting env f now s hs]; simp
  case RESET => rw [draw_eq_reset env f now s hs]; simp [draw_reset_step]
  case START =>
    rw [draw_eq_start env f now s hs]
    unfold draw_start_step
    dsimp only
    split
    · simp
    · split <;> simp
  case STATIC =>
    rw [draw_eq_static env f now s hs]
    unfold draw_static_step
    split <;> simp
  case DYNAMIC =>
    rw [draw_eq_dynamic env f now s hs]
    unfold draw_dynamic_step
    split <;> simp
  case BLIT => rw [draw_eq_blit env f now s hs]; simp [draw_blit_step]
  case CLEANUP => rw [draw_eq_cleanup env f now s hs, draw_cleanup_step_ops]; simp
  case FLUSH => rw [draw_eq_flush env f now s hs]; simp [draw_flush_step]
  case DONE => rw [draw_eq_done env f now s hs]; simp [draw_done_step]

/-- Claim C1: in every state reachable after open() (the cycle states),
draw() returns an explicit triple (label, category, state_name); the
label is None exactly when the call is made in the DONE state, and that
call moves the state back to START. -/
theorem draw_label_none_iff_done (env : Env) (f : Bool) (now : ℚ) (s : DAState)
    (h : s.draw_state ∈ cycleStates) :
    ∃ lbl cat nm, (draw env f now s).ret = some (lbl, cat, nm) ∧
      (lbl = none ↔ s.draw_state = .DONE) ∧
      (s.draw_state = .DONE → (draw env f now s).state.draw_state = .START) := by
  cases hs : s.draw_state
  case CREATED => rw [hs] at h; simp [cycleStates] at h
  case OPEN => rw [hs] at h; simp [cycleStates] at h
  case CLOSED => rw [hs] at h; simp [cycleStates] at h
  case WAITING =>
    rw [draw_eq_waiting env f now s hs]
    exact ⟨some "waiting", none, s.draw_state.name, rfl, by simp [hs],
      fun hd => by cases hd⟩
  case RESET =>
    rw [draw_eq_reset env f now s hs]
    exact ⟨some "reset", none, DrawState.START.name, rfl, by simp [hs],
      fun hd => by cases hd⟩
  case START =>
    rw [draw_eq_start env f now s hs]
    unfold draw_start_step
    dsimp only
    split
    · exact ⟨some "bg_base = copy_from_bbox", none, DrawState.STATIC.name, rfl,
        by simp [hs], fun hd => by cases hd⟩
    · split
      · exact ⟨some "restore_region bg_base", none, DrawState.STATIC.name, rfl,
          by simp [hs], fun hd => by cases hd⟩
      · exact ⟨some "restore_region bg_static", none, DrawState.DYNAMIC.name, rfl,
          by simp [hs], fun hd => by cases hd⟩
  case STATIC =>
    rw [draw_eq_static env f now s hs]
    unfold draw_static_step
    split
    · refine ⟨_, some "static", _, rfl, by simp [hs], fun hd => by cases hd⟩
    · exact ⟨some "bg_static = copy_from_bbox", none, DrawState.DYNAMIC.name, rfl,
        by simp [hs], fun hd => by cases hd⟩
  case DYNAMIC =>
    rw [draw_eq_dynamic env f now s hs]
    unfold draw_dynamic_step
    split
    · refine ⟨_, some "dynamic", _, rfl, by simp [hs], fun hd => by cases hd⟩
    · exact ⟨some "dynamic", none, DrawState.BLIT.name, rfl,
        by simp [hs], fun hd => by cases hd⟩
  case BLIT =>
    rw [draw_eq_blit env f now s hs]
    exact ⟨some "blit", none, DrawState.CLEANUP.name, rfl, by simp [hs],
      fun hd => by cases hd⟩
  case CLEANUP =>
    rw [draw_eq_cleanup env f now s hs, draw_cleanup_step_ret]
    exact ⟨some "cleanup", none, _, rfl, by simp [hs],
      fun hd => by cases hd⟩
  case FLUSH =>
    rw [draw_eq_flush env f now s hs]
    exact ⟨some "FLUSH", none, DrawState.DONE.name, rfl, by simp [hs],
      fun hd => by cases hd⟩
  case DONE =>
    rw [draw_eq_done env f now s hs]
    exact ⟨none, none, DrawState.START.name, rfl, by simp [hs],
      fun _ => draw_done_step_state s⟩

/-- Witness for C1: a concrete instance in the DONE state. -/
theorem draw_label_none_iff_done_witness :
    ∃ lbl cat nm, (draw env0 false 0 doneState).ret = some (lbl, cat, nm) ∧
      (lbl = none ↔ doneState.draw_state = .DONE) ∧
      (doneState.draw_state = .DONE →
        (draw env0 false 0 doneState).state.draw_state = .START) :=
  draw_label_none_iff_done env0 false 0 doneState (by decide)

/-- Claim C10: in the WAITING state a draw() call returns the triple
(waiting, None, WAITING) and changes nothing at all, and reset() while
WAITING is likewise a complete no-op. -/
theorem waiting_draw_and_reset_noop (env : Env) (f : Bool) (now : ℚ) (s : DAState)
    (info : String) (h : s.draw_state = .WAITING) :
    draw env f now s = ⟨s, some (some "waiting", none, "WAITING"), []⟩ ∧
      reset s info = s := by
  constructor
  · rw [draw_eq_waiting env f now s h, h]
    rfl
  · unfold reset
    rw [if_pos h]

/-- Witness for C10: the concrete stalled instance. -/
theorem waiting_draw_and_reset_noop_witness :
    draw env0 false 0 waitingState
        = ⟨waitingState, some (some "waiting", none, "WAITING"), []⟩ ∧
      reset waitingState "limits" = waitingState :=
  waiting_draw_and_reset_noop env0 false 0 waitingState "limits" rfl

/-- Claim C2: on any reachable instance state (one satisfying the
WAITING invariant), the resize callback, the external draw-event
callback and a reset() call each leave the cached static background
absent (the resize callback also drops the base background), and a
subsequent START step taken with the static background absent enters
the STATIC recapture phase instead of compositing from a stale
snapshot. -/
theorem bg_snapshot_invalidation (s : DAState) (info : String) (h : waitInv s)
    (env : Env) (f : Bool) (now : ℚ) (s2 : DAState)
    (h2 : s2.draw_state = .START) (h3 : s2._bg_static = none) :
    (on_resize s)._bg_static = none ∧
    (on_resize s)._bg_base = none ∧
    (on_draw_event s)._bg_static = none ∧
    (reset s info)._bg_static = none ∧
    (draw env f now s2).state.draw_state = .STATIC := by
  refine ⟨?_, ?_, rfl, ?_, ?_⟩
  · unfold on_resize
    dsimp only
    split <;> rfl
  · unfold on_resize
    dsimp only
    split <;> rfl
  · unfold reset
    split
    · next hw => exact h hw
    · rfl
  · rw [draw_eq_start env f now s2 h2]
    exact draw_start_step_to_static env _
      ((enumerate_artists_bg_static env s2).trans h3)

/-- Witness for C2: a concrete mid-frame instance and a concrete START
state with no static background. -/
theorem bg_snapshot_invalidation_witness :
    (on_resize doneState)._bg_static = none ∧
    (on_resize doneState)._bg_base = none ∧
    (on_draw_event doneState)._bg_static = none ∧
    (reset doneState "layout")._bg_static = none ∧
    (draw env0 false 0 startNoStatic).state.draw_state = .STATIC :=
  bg_snapshot_invalidation doneState "layout" (fun _ => rfl)
    env0 false 0 startNoStatic rfl rfl

/-- Claim C4: on any reachable instance state, reset() leaves the
cached static background absent, and — unless the machine is stalled
in WAITING, where reset() returns without touching anything — it moves
to RESET, the following bookkeeping step lands in START with the
static background still absent, and the START step after that enters
the STATIC recapture phase. -/
theorem reset_forces_static_recapture (env : Env) (f : Bool) (now : ℚ)
    (s : DAState) (info : String) (h : waitInv s) :
    (reset s info)._bg_static = none ∧
    (s.draw_state ≠ .WAITING →
      (reset s info).draw_state = .RESET ∧
      (draw env f now (reset s info)).state.draw_state = .START ∧
      (draw env f now (reset s info)).state._bg_static = none ∧
      (draw env f now ((draw env f now (reset s info)).state)).state.draw_state
        = .STATIC) := by
  by_cases hw : s.draw_state = .WAITING
  · refine ⟨?_, fun hne => absurd hw hne⟩
    unfold reset
    rw [if_pos hw]
    exact h hw
  · have hr : reset s info = { s with draw_state := .RESET, _bg_static := none } := by
      unfold reset
      rw [if_neg hw]
    have h1 : (draw env f now (reset s info)).state
        = { reset s info with draw_state := .START, _bg_static := none } := by
      rw [draw_eq_reset env f now (reset s info) (by rw [hr])]
      rfl
    refine ⟨by rw [hr], fun _ => ⟨by rw [hr], by rw [h1], by rw [h1], ?_⟩⟩
    rw [h1, draw_eq_start env f now _ rfl]
    exact draw_start_step_to_static env _
      ((enumerate_artists_bg_static env _).trans rfl)

/-- Witness for C4: reset() on a concrete instance at the end of a
frame, followed by the two draw() steps of the next cycle. -/
theorem reset_forces_static_recapture_witness :
    (reset doneState "limits")._bg_static = none ∧
    (reset doneState "limits").draw_state = .RESET ∧
    (draw env0 false 0 (reset doneState "limits")).state.draw_state = .START ∧
    (draw env0 false 0 (reset doneState "limits")).state._bg_static = none ∧
    (draw env0 false 0
        ((draw env0 false 0 (reset doneState "limits")).state)).state.draw_state
      = .STATIC := by
  have h := reset_forces_static_recapture env0 false 0 doneState "limits" (fun _ => rfl)
  have h2 := h.2 (by decide)
  exact ⟨h.1, h2.1, h2.2.1, h2.2.2.1, h2.2.2.2⟩

/-- Claim C6: in the STATIC phase each draw() call pops exactly one
artist off the front of the stored static list and draws it, leaving
the phase and the cached static background alone; the call that finds
the list empty captures the canvas as the static background and
advances to DYNAMIC. -/
theorem static_phase_step (env : Env) (f : Bool) (now : ℚ) (s : DAState)
    (h : s.draw_state = .STATIC) :
    (∀ a rest, s.static_animated_artists = a :: rest →
       (draw env f now s).state.static_animated_artists = rest ∧
       (draw env f now s).ops = [.draw_artist a] ∧
       (draw env f now s).state.draw_state = .STATIC ∧
       (draw env f now s).state._bg_static = s._bg_static ∧
       (draw env f now s).ret = some (some (artistLabel a), some "static", "STATIC")) ∧
    (s.static_animated_artists = [] →
       (draw env f now s).state._bg_static = some env.capture ∧
       (draw env f now s).state.draw_state = .DYNAMIC ∧
       (draw env f now s).ops = [.copy_from_bbox]) := by
  have hne : ¬s.draw_state = .START := by
    rw [h]
    intro hx
    cases hx
  rw [draw_eq_static env f now s h]
  constructor
  · intro a rest hl
    have hl2 : (enumerate_artists env s).static_animated_artists = a :: rest :=
      (enumerate_artists_static_list env s hne).trans hl
    unfold draw_static_step
    rw [hl2]
    refine ⟨rfl, rfl, ?_, ?_, ?_⟩
    · exact (enumerate_artists_draw_state env s).trans h
    · exact enumerate_artists_bg_static env s
    · rw [enumerate_artists_draw_state env s, h]
      rfl
  · intro hl
    have hl2 : (enumerate_artists env s).static_animated_artists = [] :=
      (enumerate_artists_static_list env s hne).trans hl
    unfold draw_static_step
    rw [hl2]
    exact ⟨rfl, rfl, rfl⟩

/-- Witness for C6: one STATIC step on an instance holding one stored
static artist, and one on an instance whose list is exhausted. -/
theorem static_phase_step_witness :
    (draw env0 false 0 staticOneState).state.static_animated_artists = [] ∧
    (draw env0 false 0 staticOneState).ops = [.draw_artist sampleArtist] ∧
    (draw env0 false 0 staticOneState).state.draw_state = .STATIC ∧
    (draw env0 false 0 staticEmptyState).state._bg_static = some env0.capture ∧
    (draw env0 false 0 staticEmptyState).state.draw_state = .DYNAMIC := by
  have h1 := (static_phase_step env0 false 0 staticOneState rfl).1 sampleArtist [] rfl
  have h2 := (static_phase_step env0 false 0 staticEmptyState rfl).2 rfl
  exact ⟨h1.1, h1.2.1, h1.2.2.1, h2.1, h2.2.1⟩

/-- Claim C3 (code bug): open() on an instance still holding cached
snapshots does reset the state to START and does subscribe the three
callbacks, but it leaves `_bg_base` and `_bg_static` untouched — the
snapshot-clearing line assigns None to the misspelled attributes
`bg_base` and `static`, which nothing ever reads. -/
theorem open_leaves_cached_snapshots :
    (openDA env0 preOpenState false false [] false none).toOption.map
        (fun s2 => (s2._bg_base, s2._bg_static, s2.draw_state, s2._mpl_connect,
                    s2.bg_base, s2.static))
      = some (some 7, some 8, .START,
              ["resize_event", "draw_event", "close_event"], none, none) :=
  rfl

/-- Claim C5 (code bug): an artist that has been removed from the
figure after the cycle classified it is still popped from the stored
list and drawn — the current figure classifies to no artists at all,
yet the step draws the stale stored artist.  (The membership check
that would drop it is commented out in draw_artists.) -/
theorem removed_artist_still_drawn :
    classify midCycleState envAfterRemoval = ([], []) ∧
    (draw envAfterRemoval false 0 midCycleState).ops
        = [.draw_artist removedArtist] ∧
    (draw envAfterRemoval false 0 midCycleState).ret
        = some (some "99 removed-line", some "dynamic", "DYNAMIC") :=
  ⟨rfl, rfl, rfl⟩

/-- The disconnect loop raises exactly when some stored connection
fails to disconnect. -/
theorem disconnectAll_error_iff (env : Env) (l : List String) :
    disconnectAll env l = .error () ↔ ∃ c ∈ l, env.disconnectFails c = true := by
  induction l with
  | nil => simp [disconnectAll]
  | cons e rest ih =>
    by_cases hf : env.disconnectFails e <;> simp [disconnectAll, hf, ih]

/-- Claim C8 (amended): the disconnect calls of open() sit inside a
bare try/except, so open() never propagates a disconnect failure; the
disconnect calls of close() are unguarded, so close() raises exactly
when disconnecting one of its stored connections fails. -/
theorem open_swallows_close_propagates (env : Env) (s : DAState)
    (xd yd dbg : Bool) (extra : List Nat) (nm : Option String) :
    (∃ s2, openDA env s xd yd extra dbg nm = .ok s2) ∧
    ((∃ e, close env s = .error e) ↔ ∃ c ∈ s._mpl_connect, env.disconnectFails c = true) := by
  constructor
  · cases nm <;> exact ⟨_, rfl⟩
  · unfold close
    cases hd : disconnectAll env s._mpl_connect with
    | error e =>
      constructor
      · intro _
        cases e
        exact (disconnectAll_error_iff env s._mpl_connect).1 hd
      · intro _
        exact ⟨e, rfl⟩
    | ok u =>
      constructor
      · rintro ⟨e, he⟩
        cases he
      · intro hx
        have h2 := (disconnectAll_error_iff env s._mpl_connect).2 hx
        rw [hd] at h2
        cases h2

/-- Claim C8 counterexample: on a canvas whose mpl_disconnect raises,
close() propagates the failure to the caller instead of silently
ignoring it, refuting the claim that the disconnect calls of close()
are wrapped in a catch-all. -/
theorem close_disconnect_failure_propagates :
    close envFail connectedState = .error () :=
  rfl

/-- Claim C9: exiting a completed DrawTimes context with a recorded
name adds exactly the measured elapsed time to that name's total,
bumps that name's draw count by exactly one, and leaves the totals and
counts of every other name unchanged; exiting with no recorded name
changes nothing. -/
theorem drawtimes_exit_accumulates (st : DrawTimes) (t1 : ℚ)
    (hwf : drawtimesWF st) :
    (st.name = none → DrawTimes.exit t1 st = st) ∧
    ∀ n, st.name = some n →
      ((DrawTimes.exit t1 st)._drawtimes n
          = some ((st._drawtimes n).getD 0 + (t1 - st.t0.getD 0)) ∧
       (DrawTimes.exit t1 st)._drawcount n = some ((st._drawcount n).getD 0 + 1) ∧
       ∀ m, m ≠ n →
         (DrawTimes.exit t1 st)._drawtimes m = st._drawtimes m ∧
         (DrawTimes.exit t1 st)._drawcount m = st._drawcount m) := by
  constructor
  · intro h
    unfold DrawTimes.exit
    rw [h]
  · intro n hn
    unfold DrawTimes.exit
    rw [hn]
    by_cases hmem : (st._drawtimes n).isNone
    · have hnone : st._drawtimes n = none := Option.isNone_iff_eq_none.1 hmem
      have hcnone : st._drawcount n = none := (hwf n).1 hnone
      simp only [hmem, if_true, hnone]
      refine ⟨by simp, by simp [hcnone], fun m hm => ?_⟩
      simp [hm]
    · simp only [hmem, if_false]
      refine ⟨by simp, by simp, fun m hm => ?_⟩
      simp [hm]

/-- A fresh DrawTimes accumulator is well formed. -/
theorem drawtimesWF_make : drawtimesWF DrawTimes.make := by
  intro m
  simp [DrawTimes.make]

/-- Entering a timing context keeps the accumulator well formed. -/
theorem drawtimesWF_enter (now : ℚ) (st : DrawTimes) (h : drawtimesWF st) :
    drawtimesWF (DrawTimes.enter now st) :=
  h

/-- Exiting a timing context keeps the accumulator well formed. -/
theorem drawtimesWF_exit (t1 : ℚ) (st : DrawTimes) (h : drawtimesWF st) :
    drawtimesWF (DrawTimes.exit t1 st) := by
  unfold DrawTimes.exit
  cases hn : st.name with
  | none => exact h
  | some n =>
    intro m
    by_cases hm : m = n
    · subst hm
      by_cases hmem : (st._drawtimes m).isNone <;> simp [hmem]
    · by_cases hmem : (st._drawtimes n).isNone <;> simp [hmem, hm, h m]

/-- Witness for C9: a concrete accumulator holding 2 seconds over 3
draws for the key axis, exited at time 5 for a context entered at
time 1. -/
theorem drawtimes_exit_accumulates_witness :
    (DrawTimes.exit 5 dt0)._drawtimes "axis" = some 6 ∧
    (DrawTimes.exit 5 dt0)._drawcount "axis" = some 4 ∧
    (DrawTimes.exit 5 dt0)._drawtimes "line" = none ∧
    (DrawTimes.exit 5 dt0)._drawcount "line" = none := by
  have hwf : drawtimesWF dt0 := by
    intro m
    by_cases hm : m = "axis" <;> simp [dt0, DrawTimes.make, hm]
  have h := (drawtimes_exit_accumulates dt0 5 hwf).2 "axis" rfl
  have hm := h.2.2 "line" (by decide)
  refine ⟨?_, ?_, ?_, ?_⟩
  · rw [h.1]
    norm_num [dt0, DrawTimes.make]
  · rw [h.2.1]
    norm_num [dt0, DrawTimes.make]
  · rw [hm.1]
    simp [dt0, DrawTimes.make]
  · rw [hm.2]
    simp [dt0, DrawTimes.make]

end Drawanim
